import Mathlib

/-!
A shallow embedding of the release-workflow core of the `knope` repository
(files `src/releases/semver.rs`, `src/issues/mod.rs`, `src/command.rs`),
together with theorems settling the specification claims about it.

External collaborators (the `semver` crate's parser/validator, manifest file
adapters, the Jira/GitHub HTTP clients, the selection prompt, the shell) are
modelled at their interface boundary: pure functions mirroring their documented
behaviour, or oracle parameters quantified over in the theorems.

String operations are modelled structurally over `List Char` (Rust `&str`
operations such as `split`, `parse` and `replace` are re-implemented rather
than mapped to Lean's position-based `String` primitives), so that every
definition evaluates on concrete inputs.
-/

set_option autoImplicit false

namespace Knope

/-! ## Character-list string helpers -/

/-- Splits a character list at every occurrence of the separator `sep`,
like Rust's `str::split(sep)`: `n` separators yield `n + 1` (possibly empty)
pieces, and the empty string yields one empty piece. -/
def splitOnChar (sep : Char) : List Char → List (List Char)
  | [] => [[]]
  | c :: rest =>
    if c = sep then [] :: splitOnChar sep rest
    else
      match splitOnChar sep rest with
      | [] => [[c]]
      | piece :: pieces => (c :: piece) :: pieces

/-- Joins character lists with the separator `sep` between them
(inverse of `splitOnChar`). -/
def joinSep (sep : Char) : List (List Char) → List Char
  | [] => []
  | [x] => x
  | x :: y :: rest => x ++ sep :: joinSep sep (y :: rest)

/-- The numeric value of a list of decimal digits, most significant first. -/
def digitsVal (s : List Char) : Nat :=
  s.foldl (fun n c => n * 10 + (c.toNat - '0'.toNat)) 0

/-- Parses a nonempty all-digits character list as a `Nat` (the common core of
Rust's unsigned `str::parse` implementations, without range checks). -/
def charsToNat? (s : List Char) : Option Nat :=
  if s.isEmpty then none
  else if s.all Char.isDigit then some (digitsVal s) else none

/-! ## SemVer data model (the external `semver` crate, as used by `semver.rs`)

`semver::Version` holds `major`, `minor`, `patch` (u64 in the crate; modelled
as `Nat`, with `parseVersion` below rejecting out-of-range input exactly as the
crate's parser does and every increment in `bump` reduced mod `2 ^ 64` to match
the u64 arithmetic) plus a prerelease string (`Prerelease`, `""` meaning
absent) and build metadata (`BuildMetadata`). -/

structure Version where
  major : Nat
  minor : Nat
  patch : Nat
  pre : String
  build : String
  deriving DecidableEq, Repr

/-- A character allowed in a SemVer prerelease/build identifier:
ASCII alphanumeric or hyphen. -/
def identChar (c : Char) : Bool :=
  c.isAlphanum || c = '-'

/-- A valid SemVer prerelease identifier: nonempty, alphanumerics/hyphens only,
and if it is all digits it has no leading zero. -/
def validPreIdent (s : List Char) : Bool :=
  !s.isEmpty && s.all identChar &&
    (if s.all Char.isDigit then s = ['0'] || s.head? != some '0' else true)

/-- A valid (nonempty) SemVer prerelease string: one or more dot-separated
valid identifiers. -/
def validPrerelease (s : String) : Bool :=
  !s.data.isEmpty && (splitOnChar '.' s.data).all validPreIdent

/-- A valid SemVer build-metadata identifier: nonempty, alphanumerics/hyphens
(leading zeros are allowed in build metadata). -/
def validBuildIdent (s : List Char) : Bool :=
  !s.isEmpty && s.all identChar

/-- A valid (nonempty) SemVer build-metadata string. -/
def validBuild (s : String) : Bool :=
  !s.data.isEmpty && (splitOnChar '.' s.data).all validBuildIdent

/-- Models `semver::Prerelease::new`: accepts `""` (the empty prerelease) or a
valid prerelease string, rejects anything else. (The crate's error messages
are richer; only the success/failure split matters here.) -/
def prereleaseNew (s : String) : Except String String :=
  if s.data.isEmpty then .ok s
  else if validPrerelease s then .ok s
  else .error "invalid prerelease string"

/-- Models a numeric component of `semver::Version::parse`: all digits, no
leading zero, value within u64 range. -/
def parseNumericU64 (s : List Char) : Option Nat :=
  match charsToNat? s with
  | none => none
  | some n =>
    if s.length > 1 && s.head? = some '0' then none
    else if n < 2 ^ 64 then some n else none

/-- Splits at the first occurrence of the separator `sep`, returning the part
before it and (when the separator occurs at all) everything after it. -/
def splitFirst (s : List Char) (sep : Char) : List Char × Option (List Char) :=
  match splitOnChar sep s with
  | [] => (s, none)
  | [x] => (x, none)
  | x :: rest => (x, some (joinSep sep rest))

/-- Models `semver::Version::parse` (external crate):
`MAJOR.MINOR.PATCH[-PRERELEASE][+BUILD]` with u64 numeric components without
leading zeros, valid prerelease identifiers and valid build identifiers. -/
def parseVersion (s : String) : Option Version :=
  let (beforePlus, buildOpt) := splitFirst s.data '+'
  let (core, preOpt) := splitFirst beforePlus '-'
  match splitOnChar '.' core with
  | [ma, mi, pa] =>
    match parseNumericU64 ma, parseNumericU64 mi, parseNumericU64 pa with
    | some major, some minor, some patch =>
      let pre := match preOpt with
        | none => some ""
        | some p => if validPrerelease ⟨p⟩ then some (String.mk p) else none
      let build := match buildOpt with
        | none => some ""
        | some b => if validBuild ⟨b⟩ then some (String.mk b) else none
      match pre, build with
      | some pre, some build => some ⟨major, minor, patch, pre, build⟩
      | _, _ => none
    | _, _, _ => none
  | _ => none

/-- Renders a `Version` the way the crate's `Display` impl does (also the
`Display` impl of `PackageVersion` in `semver.rs`). -/
def versionToString (v : Version) : String :=
  toString v.major ++ "." ++ toString v.minor ++ "." ++ toString v.patch
    ++ (if v.pre.data.isEmpty then "" else "-" ++ v.pre)
    ++ (if v.build.data.isEmpty then "" else "+" ++ v.build)

/-! ## Bump rules (`semver.rs`) -/

/-- The rules that can be derived from Conventional Commits (`ConventionalRule`). -/
inductive ConventionalRule
  | Major
  | Minor
  | Patch
  deriving DecidableEq, Repr

/-- `impl Default for ConventionalRule`. -/
def ConventionalRule.default : ConventionalRule := .Patch

/-- The rules for bumping the current version (`Rule` in `semver.rs`). -/
inductive Rule
  | Major
  | Minor
  | Patch
  | Pre (label : String) (fallback_rule : ConventionalRule)
  | Release
  deriving DecidableEq, Repr

/-- `impl From<ConventionalRule> for Rule`. -/
def ConventionalRule.toRule : ConventionalRule → Rule
  | .Major => Rule.Major
  | .Minor => Rule.Minor
  | .Patch => Rule.Patch

/-- Models `str::parse::<u16>`: optional leading `+`, then one or more digits,
value at most 65535. Returns the Rust `ParseIntError` display messages on
failure. -/
def parseU16 (s : String) : Except String Nat :=
  let t := match s.data with
    | '+' :: rest => rest
    | l => l
  if t.isEmpty then .error "cannot parse integer from empty string"
  else
    match charsToNat? t with
    | none => .error "invalid digit found in string"
    | some n =>
      if n ≤ 65535 then .ok n
      else .error "number too large to fit in target type"

mutual

/-- `bump` from `semver.rs`: apply a `Rule` to a version, incrementing and
resetting the correct components, with the 0.x special case (`Major` bumps
minor, `Minor` bumps patch when `major = 0`). The source's `+= 1` is u64
arithmetic, modelled as `(x + 1) % 2 ^ 64` (the wrap at `u64::MAX` is the
release-build behavior; a debug build would panic there instead). -/
def bump (version : Version) (rule : Rule) : Except String Version :=
  let is_0 := version.major == 0
  match rule, is_0 with
  | Rule.Major, false =>
    .ok { version with major := (version.major + 1) % 2 ^ 64, minor := 0, patch := 0, pre := "" }
  | Rule.Minor, false | Rule.Major, true =>
    .ok { version with minor := (version.minor + 1) % 2 ^ 64, patch := 0, pre := "" }
  | Rule.Patch, _ | Rule.Minor, true =>
    .ok { version with patch := (version.patch + 1) % 2 ^ 64, pre := "" }
  | Rule.Release, _ =>
    .ok { version with pre := "" }
  | Rule.Pre label fallback_rule, _ => bump_pre version label fallback_rule
termination_by (match rule with | Rule.Pre _ _ => 2 | _ => 0)

/-- `bump_pre` from `semver.rs`: bump the prerelease component. With no
existing prerelease, first apply the fallback rule via `bump`, then attach
`"{label}.0"` (the source names this parameter `prefix`, a reserved word
here). Otherwise the existing prerelease must be exactly `label.N`; a
different label resets to `"{label}.0"`, a matching label parses `N` as u16
and emits `"{label}.{N+1}"`.
(The source checks `parts.len() != 2` and then indexes `parts[0]`/`parts[1]`;
matching on the two-element list is the same test. `pre_version + 1` is u16
arithmetic in the source, modelled as `(pre_version + 1) % 65536`: the wrap to
`"{label}.0"` at `N = 65535` is the release-build behavior, a debug build
would panic there instead.) -/
def bump_pre (version : Version) (label : String) (fallback_rule : ConventionalRule) :
    Except String Version :=
  if version.pre.data.isEmpty then
    match bump version fallback_rule.toRule with
    | .error e => .error e
    | .ok v =>
      match prereleaseNew (label ++ ".0") with
      | .error e => .error e
      | .ok p => .ok { v with pre := p }
  else
    match splitOnChar '.' version.pre.data with
    | [part0, part1] =>
      if String.mk part0 != label then
        match prereleaseNew (label ++ ".0") with
        | .error e => .error e
        | .ok p => .ok { version with pre := p }
      else
        match parseU16 (String.mk part1) with
        | .error e => .error e
        | .ok pre_version =>
          match prereleaseNew (label ++ "." ++ toString ((pre_version + 1) % 65536)) with
          | .error e => .error e
          | .ok p => .ok { version with pre := p }
    | _ => .error "A prerelease version already exists but could not be incremented"
termination_by 1
decreasing_by
  all_goals simp_wf
  all_goals cases fallback_rule <;> simp [ConventionalRule.toRule]

end

/-! ## A kernel-computable mirror of `bump`

`bump`/`bump_pre` are mutually recursive, so Lean compiles them by
well-founded recursion and the kernel cannot evaluate them directly. The
recursive call inside `bump_pre` only ever receives `fallback_rule.into()`,
which is never a `Pre` rule, so the recursion unfolds into the non-recursive
functions below; `bump_eq_impl` (proved later) identifies the two, and
concrete evaluations go through the mirror. -/

/-- The result of `bump` on a `ConventionalRule` (the `Major`/`Minor`/`Patch`
arms, which never fail). -/
def conventionalBumped (version : Version) (fallback : ConventionalRule) : Version :=
  match fallback, version.major == 0 with
  | .Major, false =>
    { version with major := (version.major + 1) % 2 ^ 64, minor := 0, patch := 0, pre := "" }
  | .Minor, false | .Major, true =>
    { version with minor := (version.minor + 1) % 2 ^ 64, patch := 0, pre := "" }
  | .Patch, _ | .Minor, true =>
    { version with patch := (version.patch + 1) % 2 ^ 64, pre := "" }

/-- Non-recursive unfolding of `bump_pre` (the call
`bump version fallback_rule.into()` replaced by its value). -/
def bump_preImpl (version : Version) (label : String) (fallback_rule : ConventionalRule) :
    Except String Version :=
  if version.pre.data.isEmpty then
    match prereleaseNew (label ++ ".0") with
    | .error e => .error e
    | .ok p => .ok { conventionalBumped version fallback_rule with pre := p }
  else
    match splitOnChar '.' version.pre.data with
    | [part0, part1] =>
      if String.mk part0 != label then
        match prereleaseNew (label ++ ".0") with
        | .error e => .error e
        | .ok p => .ok { version with pre := p }
      else
        match parseU16 (String.mk part1) with
        | .error e => .error e
        | .ok pre_version =>
          match prereleaseNew (label ++ "." ++ toString ((pre_version + 1) % 65536)) with
          | .error e => .error e
          | .ok p => .ok { version with pre := p }
    | _ => .error "A prerelease version already exists but could not be incremented"

/-- Non-recursive unfolding of `bump` (the `Pre` arm delegated to
`bump_preImpl`). -/
def bumpImpl (version : Version) (rule : Rule) : Except String Version :=
  let is_0 := version.major == 0
  match rule, is_0 with
  | Rule.Major, false =>
    .ok { version with major := (version.major + 1) % 2 ^ 64, minor := 0, patch := 0, pre := "" }
  | Rule.Minor, false | Rule.Major, true =>
    .ok { version with minor := (version.minor + 1) % 2 ^ 64, patch := 0, pre := "" }
  | Rule.Patch, _ | Rule.Minor, true =>
    .ok { version with patch := (version.patch + 1) % 2 ^ 64, pre := "" }
  | Rule.Release, _ =>
    .ok { version with pre := "" }
  | Rule.Pre label fallback_rule, _ => bump_preImpl version label fallback_rule

/-! ## Manifest discovery and the bump step (`semver.rs`)

The per-ecosystem manifest adapters (`crate::cargo`, `crate::pyproject`,
`crate::package_json`) are external collaborators: each one's `get_version`
either yields the manifest's version string or nothing. The file system is
modelled as a `Manifests` record holding those three answers, and
`set_version` (which writes a file in the source) updates the record. -/

/-- The answers of the three manifest adapters' `get_version` probes, in the
order `semver.rs` consults them: `Cargo.toml`, `pyproject.toml`,
`package.json`. -/
structure Manifests where
  cargo : Option String
  pyproject : Option String
  package_json : Option String
  deriving DecidableEq, Repr

/-- `PackageManager` from `semver.rs`. -/
inductive PackageManager
  | Cargo
  | Poetry
  | JavaScript
  deriving DecidableEq, Repr

/-- `PackageVersion` from `semver.rs`: a parsed version plus the ecosystem it
came from. -/
structure PackageVersion where
  version : Version
  package_manager : PackageManager
  deriving DecidableEq, Repr

/-- `get_version` from `semver.rs`: probe `Cargo.toml`, then `pyproject.toml`,
then `package.json`; the first manifest that yields a version string wins, and
its string must parse as SemVer or the whole operation errors. -/
def get_version (m : Manifests) : Except String PackageVersion :=
  match m.cargo with
  | some cargo_version =>
    match parseVersion cargo_version with
    | some version => .ok ⟨version, .Cargo⟩
    | none =>
      .error ("Found " ++ cargo_version ++ " in Cargo.toml which is not a valid version")
  | none =>
    match m.pyproject with
    | some pyproject_version =>
      match parseVersion pyproject_version with
      | some version => .ok ⟨version, .Poetry⟩
      | none =>
        .error ("Found " ++ pyproject_version ++ " in pyproject.toml which is not a valid version")
    | none =>
      match m.package_json with
      | some package_version =>
        match parseVersion package_version with
        | some version => .ok ⟨version, .JavaScript⟩
        | none =>
          .error ("Found " ++ package_version ++ " in package.json which is not a valid version")
      | none => .error "No supported metadata found to parse version from"

/-- `set_version` from `semver.rs`: write the version's display string to the
manifest of the version's ecosystem (a file write in the source, an update of
the corresponding `Manifests` field here; adapter write failures are outside
the model). -/
def set_version (m : Manifests) (version : PackageVersion) : Manifests :=
  match version.package_manager with
  | .Cargo => { m with cargo := some (versionToString version.version) }
  | .Poetry => { m with pyproject := some (versionToString version.version) }
  | .JavaScript => { m with package_json := some (versionToString version.version) }

/-- `bump_version` from `semver.rs`: discover the current version, bump it,
and — only when not in dry-run mode — write it back. Returns the bumped
version together with the resulting manifest state. (The source's
`wrap_err("While bumping version")` context wrapper is not modelled.) -/
def bump_version (m : Manifests) (rule : Rule) (dry_run : Bool) :
    Except String (Version × Manifests) :=
  match get_version m with
  | .error e => .error e
  | .ok pv =>
    match bump pv.version rule with
    | .error e => .error e
    | .ok v =>
      let package_version : PackageVersion := { pv with version := v }
      if dry_run then .ok (package_version.version, m)
      else .ok (package_version.version, set_version m package_version)

/-- `bump_version` with the recursive `bump` replaced by its kernel-computable
mirror `bumpImpl` (identified with `bump_version` by `bump_version_eq_impl`
below; used to evaluate concrete instances). -/
def bump_versionImpl (m : Manifests) (rule : Rule) (dry_run : Bool) :
    Except String (Version × Manifests) :=
  match get_version m with
  | .error e => .error e
  | .ok pv =>
    match bumpImpl pv.version rule with
    | .error e => .error e
    | .ok v =>
      let package_version : PackageVersion := { pv with version := v }
      if dry_run then .ok (package_version.version, m)
      else .ok (package_version.version, set_version m package_version)

/-! ## Workflow state (`state.rs` vintage used by `command.rs` / `semver.rs`)

`command.rs` and `semver.rs` see `state::State` as a struct
`{ jira_config, github, github_config, issue, release }`, with
`state::Issue = Initial | Selected(issues::Issue)` and
`state::Release = Initial | Bumped(Version)`. `state.rs` itself is not part of
the sources; the shapes below are exactly the ones those two files
destructure and build (also in their tests). The Jira configuration, GitHub
configuration and GitHub session data are opaque here, hence the type
parameters `J`, `G`, `GH`. -/

namespace Cmd

/-- `crate::issues::Issue` as used by `command.rs` (a record with an issue key
and a summary). -/
structure Issue where
  key : String
  summary : String
  deriving DecidableEq, Repr

/-- `state::Issue`: whether an issue has been selected. -/
inductive IssueSel
  | Initial
  | Selected (issue : Issue)
  deriving DecidableEq, Repr

/-- `state::Release`: whether the version-bump step has recorded a version. -/
inductive Release
  | Initial
  | Bumped (version : Version)
  deriving DecidableEq, Repr

/-- `state::State` as destructured by `command.rs`. -/
structure State (J G GH : Type) where
  jira_config : Option J
  github : GH
  github_config : Option G
  issue : IssueSel
  release : Release

/-- `RunType`: execution mode threaded through steps. `DryRun` carries the
state and an output sink (a list of emitted lines here); `Real` carries just
the state. -/
inductive RunType (J G GH : Type)
  | DryRun (state : State J G GH) (stdout : List String)
  | Real (state : State J G GH)

/-- The state carried by either `RunType` variant (the source takes `&mut`
references to it in both arms). -/
def RunType.state {J G GH : Type} : RunType J G GH → State J G GH
  | .DryRun s _ => s
  | .Real s => s

/-- `StepError` (declared in `src/step.rs`, outside these sources; variants
reconstructed from their uses in `command.rs` and the spec's error taxonomy):
a failed command carries its exit status, `NoIssueSelected` is the usage error
for branch-name resolution without a selected issue, and `DiscoveryError`
wraps the version-discovery failure message. -/
inductive StepError
  | CommandError (status : Nat)
  | NoIssueSelected
  | DiscoveryError (msg : String)
  deriving DecidableEq, Repr

/-- `Variable` from `command.rs`: what a placeholder token stands for. -/
inductive Variable
  | Version
  | IssueBranch
  deriving DecidableEq, Repr

end Cmd

/-! ## Rust string replacement (`str::replace`)

`command.rs` substitutes variables with Rust's `str::replace`, which rewrites
every non-overlapping occurrence of the pattern, leftmost first, in a single
left-to-right scan. Re-implemented structurally (Lean's `String.replace` is
not kernel-computable and treats the empty pattern differently). -/

/-- Rust `str::replace` with an empty pattern: the replacement is inserted at
every character boundary, including both ends. -/
def replaceEmptyPat (rep : List Char) : List Char → List Char
  | [] => rep
  | c :: rest => rep ++ c :: replaceEmptyPat rep rest

/-- One pass of Rust `str::replace` for a nonempty pattern. `fuel` only bounds
the recursion for Lean's sake: every step consumes at least one character, so
`s.length` fuel is enough and the `0` arm is never reached from
`rustReplace`. -/
def replaceAux : Nat → List Char → List Char → List Char → List Char
  | 0, s, _, _ => s
  | _ + 1, [], _, _ => []
  | fuel + 1, c :: rest, pat, rep =>
    if pat.isPrefixOf (c :: rest) then
      rep ++ replaceAux fuel (List.drop pat.length (c :: rest)) pat rep
    else c :: replaceAux fuel rest pat rep

/-- Models Rust `str::replace(pattern, replacement)`. -/
def rustReplace (s pat rep : String) : String :=
  if pat.data.isEmpty then ⟨replaceEmptyPat rep.data s.data⟩
  else ⟨replaceAux s.data.length s.data pat.data rep.data⟩

namespace Cmd

/-- `replace_variables` from `command.rs`: fold over the declared variables
(the source iterates a `HashMap`, whose order is unspecified — the list order
here stands for one iteration order), replacing each token in the current
command string by the resolved value (the source's parameter `variables` is
a reserved word here, hence `vars`). `Version` resolves through
`get_version` (hence the manifest state `m`), `IssueBranch` through
`crate::git::branch_name_from_issue` (a function outside these sources,
passed in as `branch_name`), and only when an issue is selected. -/
def replace_variables {J G GH : Type} (branch_name : Issue → String) (m : Manifests)
    (command : String) (vars : List (String × Variable)) (state : State J G GH) :
    Except StepError String :=
  match vars with
  | [] => .ok command
  | (var_name, var_type) :: rest =>
    match var_type with
    | .Version =>
      match get_version m with
      | .error e => .error (.DiscoveryError e)
      | .ok pv =>
        replace_variables branch_name m
          (rustReplace command var_name (versionToString pv.version)) rest state
    | .IssueBranch =>
      match state.issue with
      | .Initial => .error .NoIssueSelected
      | .Selected issue =>
        replace_variables branch_name m
          (rustReplace command var_name (branch_name issue)) rest state

/-- The substitution step of `run_command` (`command.rs` lines 32–34): when
variables are declared, replace them in the command, otherwise keep the
command as is. -/
def substituted {J G GH : Type} (branch_name : Issue → String) (m : Manifests)
    (command : String) (vars : Option (List (String × Variable)))
    (state : State J G GH) : Except StepError String :=
  match vars with
  | some vs => replace_variables branch_name m command vs state
  | none => .ok command

/-- `run_command` from `command.rs`: substitute the declared variables, then in
dry-run mode only report `"Would run <command>"` and return the state
untouched, and in real mode hand the command to the shell (`exec` models the
shell's exit status; spawn failures are outside the model) and fail with
`CommandError` on a non-zero status. -/
def run_command {J G GH : Type} (exec : String → Nat) (branch_name : Issue → String)
    (m : Manifests) (run_type : RunType J G GH) (command : String)
    (vars : Option (List (String × Variable))) :
    Except StepError (RunType J G GH) :=
  match substituted branch_name m command vars run_type.state with
  | .error e => .error e
  | .ok command =>
    match run_type with
    | .DryRun state stdout => .ok (.DryRun state (stdout ++ ["Would run " ++ command]))
    | .Real state =>
      let status := exec command
      if status == 0 then .ok (.Real state)
      else .error (.CommandError status)

/-- `bump_version_and_update_state` from `semver.rs`: run `bump_version` in
real mode (the source passes `dry_run = false` unconditionally) and record the
bumped version in the state's release sub-field. -/
def bump_version_and_update_state {J G GH : Type} (m : Manifests) (state : State J G GH)
    (rule : Rule) : Except String (State J G GH × Manifests) :=
  match bump_version m rule false with
  | .error e => .error e
  | .ok (version, m') => .ok ({ state with release := .Bumped version }, m')

end Cmd

/-! ## Issue selection and transition (`issues/mod.rs`)

`issues/mod.rs` sees `state::State` as a tagged union
`Initial { jira_config, github_state, github_config }` /
`IssueSelected { …, issue }` with `Issue` an enum over a Jira and a GitHub
variant. The Jira/GitHub HTTP clients and the selection prompt are external
collaborators, passed in as oracle functions (`get_issues`, `list_issues`,
`transition_issue`, `select`); `eyre` errors are their message strings. The
source's `println!` progress output has no bearing on any claim and is not
modelled. -/

namespace Issues

/-- `Issue` from `issues/mod.rs`: a Jira issue (key + summary) or a GitHub
issue (number + title). -/
inductive Issue
  | Jira (key : String) (summary : String)
  | GitHub (number : Int) (title : String)
  deriving DecidableEq, Repr

/-- The payload of `State::Initial`. -/
structure Initial (J G GS : Type) where
  jira_config : Option J
  github_state : GS
  github_config : Option G

/-- The payload of `State::IssueSelected`. -/
structure IssueSelected (J G GS : Type) where
  jira_config : Option J
  github_state : GS
  github_config : Option G
  issue : Issue

/-- `state::State` as destructured by `issues/mod.rs`. -/
inductive State (J G GS : Type)
  | Initial (d : Knope.Issues.Initial J G GS)
  | IssueSelected (d : Knope.Issues.IssueSelected J G GS)

/-- `select_jira_issue` from `issues/mod.rs`: only from `State::Initial`, and
only with a Jira configuration; fetch candidate issues from Jira
(`get_issues` oracle), let the user pick one (`select` oracle, called with the
prompt title `"Select an Issue"`), and move to `IssueSelected`. -/
def select_jira_issue {J G GS : Type}
    (get_issues : J → String → Except String (List Issue))
    (select : List Issue → String → Except String Issue)
    (status : String) (state : State J G GS) : Except String (State J G GS) :=
  match state with
  | .IssueSelected _ => .error "You've already selected an issue!"
  | .Initial ⟨jira_config, github_state, github_config⟩ =>
    match jira_config with
    | none => .error "Jira is not configured"
    | some jira_config =>
      match get_issues jira_config status with
      | .error e => .error e
      | .ok issues =>
        match select issues "Select an Issue" with
        | .error e => .error e
        | .ok issue =>
          .ok (.IssueSelected ⟨some jira_config, github_state, github_config, issue⟩)

/-- `select_github_issue` from `issues/mod.rs`: only from `State::Initial`;
list candidate issues (`list_issues` oracle, which may refresh the GitHub
configuration and session data), let the user pick one, and move to
`IssueSelected`. -/
def select_github_issue {J G GS : Type}
    (list_issues :
      Option G → GS → Option (List String) → Except String (Option G × GS × List Issue))
    (select : List Issue → String → Except String Issue)
    (labels : Option (List String)) (state : State J G GS) :
    Except String (State J G GS) :=
  match state with
  | .IssueSelected _ => .error "You've already selected an issue!"
  | .Initial ⟨jira_config, github_state, github_config⟩ =>
    match list_issues github_config github_state labels with
    | .error e => .error e
    | .ok (github_config, github_state, issues) =>
      match select issues "Select an Issue" with
      | .error e => .error e
      | .ok issue =>
        .ok (.IssueSelected ⟨jira_config, github_state, github_config, issue⟩)

/-- `transition_selected_issue` from `issues/mod.rs`: only from
`IssueSelected`, only for a Jira-variant issue, and only with a Jira
configuration; delegate to the Jira client (`transition_issue` oracle) and
keep the same issue selected. -/
def transition_selected_issue {J G GS : Type}
    (transition_issue : J → String → String → Except String Unit)
    (status : String) (state : State J G GS) : Except String (State J G GS) :=
  match state with
  | .Initial _ => .error "No issue selected, try running a SelectIssue step before this one"
  | .IssueSelected ⟨jira_config, github_state, github_config, issue⟩ =>
    match issue with
    | .Jira key summary =>
      match jira_config with
      | none => .error "Jira is not configured"
      | some jira_config =>
        match transition_issue jira_config key status with
        | .error e => .error e
        | .ok _ =>
          .ok (.IssueSelected ⟨some jira_config, github_state, github_config,
            .Jira key summary⟩)
    | .GitHub _ _ => .error "Transitioning GitHub issues is not supported"

end Issues

/-! ## Helper lemmas -/

theorem bump_conventional_eq (v : Version) (f : ConventionalRule) :
    bump v f.toRule = .ok (conventionalBumped v f) := by
  cases f <;> cases h : (v.major == 0) <;>
    simp [ConventionalRule.toRule, bump, conventionalBumped, h]

theorem bump_pre_eq_impl (v : Version) (l : String) (f : ConventionalRule) :
    bump_pre v l f = bump_preImpl v l f := by
  by_cases h : v.pre.data.isEmpty <;>
    simp [bump_pre, bump_preImpl, h, bump_conventional_eq]

theorem bump_eq_impl (v : Version) (r : Rule) : bumpImpl v r = bump v r := by
  cases r <;> cases h : (v.major == 0) <;>
    simp [bump, bumpImpl, h, bump_pre_eq_impl]

theorem string_ne_empty_data {s : String} (h : s ≠ "") : s.data.isEmpty = false := by
  cases s with
  | mk data =>
    cases data with
    | nil => exact absurd rfl h
    | cons c l => rfl

theorem validPrerelease_data_ne {s : String} (h : validPrerelease s = true) :
    s.data.isEmpty = false := by
  by_contra hc
  simp [validPrerelease, Bool.not_eq_false] at h hc
  simp [hc] at h

theorem bump_version_eq_impl (m : Manifests) (r : Rule) (d : Bool) :
    bump_versionImpl m r d = bump_version m r d := by
  simp [bump_version, bump_versionImpl, bump_eq_impl]

/-! ## Claim theorems -/

/-- C1 counterexample: the claimed plain `major + 1` fails at the parseable
version `18446744073709551615.2.3` (`u64::MAX` major): the source's u64
`+= 1` wraps, so a `Major` bump yields `0.0.0`, not `(major + 1).0.0`. -/
theorem bump_major_claim_counterexample :
    (18446744073709551615 : Nat) ≠ 0 ∧
    parseVersion "18446744073709551615.2.3" =
      some ⟨18446744073709551615, 2, 3, "", ""⟩ ∧
    bump ⟨18446744073709551615, 2, 3, "", ""⟩ .Major = .ok ⟨0, 0, 0, "", ""⟩ ∧
    (⟨0, 0, 0, "", ""⟩ : Version) ≠ ⟨18446744073709551615 + 1, 0, 0, "", ""⟩ := by
  refine ⟨by decide, by decide, ?_, by decide⟩
  rw [← bump_eq_impl]; rfl

/-- C1 (amended): for a version with `major ≠ 0`, `bump` on
`Major`/`Minor`/`Patch` increments that component and resets the lower ones
and the prerelease; with `major = 0`, `Major` bumps the minor component and
`Minor` bumps the patch component instead, while `Patch` behaves identically
in both regimes. Each increment is u64 arithmetic, `(x + 1) % 2 ^ 64`; below
`u64::MAX` this is the plain `+ 1` the claim states. -/
theorem bump_major_minor_patch (v : Version) :
    (v.major ≠ 0 →
      bump v .Major = .ok ⟨(v.major + 1) % 2 ^ 64, 0, 0, "", v.build⟩ ∧
      bump v .Minor = .ok ⟨v.major, (v.minor + 1) % 2 ^ 64, 0, "", v.build⟩) ∧
    (v.major = 0 →
      bump v .Major = .ok ⟨v.major, (v.minor + 1) % 2 ^ 64, 0, "", v.build⟩ ∧
      bump v .Minor = .ok ⟨v.major, v.minor, (v.patch + 1) % 2 ^ 64, "", v.build⟩) ∧
    bump v .Patch = .ok ⟨v.major, v.minor, (v.patch + 1) % 2 ^ 64, "", v.build⟩ := by
  refine ⟨fun h => ?_, fun h => ?_, ?_⟩
  · have hb : (v.major == 0) = false := by simp [h]
    constructor <;> simp [bump, hb]
  · have hb : (v.major == 0) = true := by simp [h]
    constructor <;> simp [bump, hb]
  · cases hb : (v.major == 0) <;> simp [bump, hb]

/-- Witness for C1 at `1.2.3-rc.1+b` (stable line) and `0.1.2-alpha.1`
(0.x line). -/
theorem bump_major_minor_patch_witness :
    (1 : Nat) ≠ 0 ∧ bump ⟨1, 2, 3, "rc.1", "b"⟩ .Major = .ok ⟨2, 0, 0, "", "b"⟩ ∧
    (0 : Nat) = 0 ∧ bump ⟨0, 1, 2, "alpha.1", ""⟩ .Minor = .ok ⟨0, 1, 3, "", ""⟩ := by
  refine ⟨by decide, ?_, rfl, ?_⟩
  · exact ((bump_major_minor_patch ⟨1, 2, 3, "rc.1", "b"⟩).1 (by decide)).1
  · exact ((bump_major_minor_patch ⟨0, 1, 2, "alpha.1", ""⟩).2.1 rfl).2

/-- C2: `bump` on `Release` clears the prerelease, leaves the numeric
components untouched, and is idempotent (applying it to its own output
changes nothing). -/
theorem bump_release_idempotent (v : Version) :
    bump v .Release = .ok ⟨v.major, v.minor, v.patch, "", v.build⟩ ∧
    bump ⟨v.major, v.minor, v.patch, "", v.build⟩ .Release =
      .ok ⟨v.major, v.minor, v.patch, "", v.build⟩ := by
  constructor <;> cases hb : (v.major == 0) <;> simp_all [bump]

/-- C3 counterexample: `bump` with a `Pre` rule does not increment every
numeric suffix to `N + 1`. The existing prerelease `rc.65536` has a numeric
suffix, yet incrementing fails because the source parses it as `u16`; at
`rc.65535` the u16 increment wraps to `rc.0` instead of the claimed
`rc.65536`; and the empty label makes every `Pre` bump fail because
`Prerelease::new(".0")` rejects the empty identifier, where the claim
promises `"{label}.0"`. -/
theorem bump_pre_claim_counterexample :
    bump ⟨1, 2, 3, "rc.65536", ""⟩ (.Pre "rc" .Minor) =
      .error "number too large to fit in target type" ∧
    bump ⟨1, 2, 3, "rc.65535", ""⟩ (.Pre "rc" .Minor) = .ok ⟨1, 2, 3, "rc.0", ""⟩ ∧
    bump ⟨1, 2, 3, "", ""⟩ (.Pre "" .Minor) = .error "invalid prerelease string" := by
  refine ⟨?_, ?_, ?_⟩ <;> rw [← bump_eq_impl] <;> rfl

/-- C3 (amended): `bump` with `Pre {label, fallback}` behaves as claimed,
with the corrections the counterexample forces: every prerelease string the
operation builds must pass `Prerelease::new` validation; the numeric suffix
`N` is parsed as an unsigned 16-bit integer, so numeric values above 65535
are a hard failure; and the increment is u16 arithmetic, so the new suffix is
`(N + 1) % 65536` — the plain `N + 1` of the claim for `N ≤ 65534`, and `0`
at `N = 65535`. -/
theorem bump_pre_spec (v : Version) (label : String) (fb : ConventionalRule) :
    (v.pre = "" → validPrerelease (label ++ ".0") = true →
      ∃ w, bump v fb.toRule = .ok w ∧
        bump v (.Pre label fb) = .ok { w with pre := label ++ ".0" }) ∧
    (v.pre ≠ "" → (splitOnChar '.' v.pre.data).length ≠ 2 →
      bump v (.Pre label fb) =
        .error "A prerelease version already exists but could not be incremented") ∧
    (∀ p0 p1, v.pre ≠ "" → splitOnChar '.' v.pre.data = [p0, p1] →
      String.mk p0 ≠ label → validPrerelease (label ++ ".0") = true →
      bump v (.Pre label fb) = .ok { v with pre := label ++ ".0" }) ∧
    (∀ p0 p1 e, v.pre ≠ "" → splitOnChar '.' v.pre.data = [p0, p1] →
      String.mk p0 = label → parseU16 ⟨p1⟩ = .error e →
      bump v (.Pre label fb) = .error e) ∧
    (∀ p0 p1 n, v.pre ≠ "" → splitOnChar '.' v.pre.data = [p0, p1] →
      String.mk p0 = label → parseU16 ⟨p1⟩ = .ok n →
      validPrerelease (label ++ "." ++ toString ((n + 1) % 65536)) = true →
      bump v (.Pre label fb) =
        .ok { v with pre := label ++ "." ++ toString ((n + 1) % 65536) }) := by
  refine ⟨fun h1 h2 => ?_, fun h1 h2 => ?_, fun p0 p1 h1 hs hne hv => ?_,
    fun p0 p1 e h1 hs heq hp => ?_, fun p0 p1 n h1 hs heq hp hv => ?_⟩
  · have hd : v.pre.data.isEmpty = true := by rw [h1]; rfl
    refine ⟨conventionalBumped v fb, bump_conventional_eq v fb, ?_⟩
    rw [← bump_eq_impl]
    simp [bumpImpl, bump_preImpl, hd, prereleaseNew, validPrerelease_data_ne h2, h2]
  · have hd : v.pre.data.isEmpty = false := string_ne_empty_data h1
    rw [← bump_eq_impl]
    rcases hsp : splitOnChar '.' v.pre.data with _ | ⟨a, _ | ⟨b, _ | ⟨c, l⟩⟩⟩
    all_goals try simp [hsp] at h2
    all_goals simp [bumpImpl, bump_preImpl, hd, hsp]
  · have hd : v.pre.data.isEmpty = false := string_ne_empty_data h1
    rw [← bump_eq_impl]
    simp [bumpImpl, bump_preImpl, hd, hs, hne, prereleaseNew,
      validPrerelease_data_ne hv, hv]
  · have hd : v.pre.data.isEmpty = false := string_ne_empty_data h1
    rw [← bump_eq_impl]
    simp [bumpImpl, bump_preImpl, hd, hs, heq, hp]
  · have hd : v.pre.data.isEmpty = false := string_ne_empty_data h1
    rw [← bump_eq_impl]
    simp [bumpImpl, bump_preImpl, hd, hs, heq, hp, prereleaseNew,
      validPrerelease_data_ne hv, hv]

/-- Witness for C3 (amended) at `1.3.0-rc.0` with label `rc`: the matching
branch increments to `rc.1`. -/
theorem bump_pre_spec_witness :
    splitOnChar '.' ("rc.0" : String).data = [['r', 'c'], ['0']] ∧
    bump ⟨1, 3, 0, "rc.0", ""⟩ (.Pre "rc" .Minor) = .ok ⟨1, 3, 0, "rc.1", ""⟩ := by
  refine ⟨by decide, ?_⟩
  exact (bump_pre_spec ⟨1, 3, 0, "rc.0", ""⟩ "rc" .Minor).2.2.2.2
    ['r', 'c'] ['0'] 0 (by decide) (by decide) rfl (by rfl) (by rfl)

/-- C5: from an `IssueSelected` state, both issue-selection operations fail
with the "already selected" usage error, whatever the tracker oracles, the
prompt, the status filter, the labels and the candidate issue sets return;
no successor state is produced. -/
theorem select_issue_already_selected {J G GS : Type}
    (get_issues : J → String → Except String (List Issues.Issue))
    (list_issues : Option G → GS → Option (List String) →
      Except String (Option G × GS × List Issues.Issue))
    (select : List Issues.Issue → String → Except String Issues.Issue)
    (status : String) (labels : Option (List String))
    (d : Issues.IssueSelected J G GS) :
    Issues.select_jira_issue get_issues select status (.IssueSelected d) =
      .error "You've already selected an issue!" ∧
    Issues.select_github_issue list_issues select labels (.IssueSelected d) =
      .error "You've already selected an issue!" :=
  ⟨rfl, rfl⟩

/-- C6: transitioning an issue's status fails with "no issue selected" from
`Initial`, always fails on a GitHub-variant issue, and on success for a
Jira-variant issue returns an `IssueSelected` state carrying the same issue
key and summary (and the same GitHub data). -/
theorem transition_selected_issue_spec {J G GS : Type}
    (transition_issue : J → String → String → Except String Unit) (status : String) :
    (∀ d : Issues.Initial J G GS,
      Issues.transition_selected_issue transition_issue status (.Initial d) =
        .error "No issue selected, try running a SelectIssue step before this one") ∧
    (∀ (d : Issues.IssueSelected J G GS) (number : Int) (title : String),
      d.issue = .GitHub number title →
      Issues.transition_selected_issue transition_issue status (.IssueSelected d) =
        .error "Transitioning GitHub issues is not supported") ∧
    (∀ (d : Issues.IssueSelected J G GS) (key summary : String)
        (s' : Issues.State J G GS),
      d.issue = .Jira key summary →
      Issues.transition_selected_issue transition_issue status (.IssueSelected d) =
        .ok s' →
      s' = .IssueSelected
        ⟨d.jira_config, d.github_state, d.github_config, .Jira key summary⟩) := by
  refine ⟨fun d => rfl, fun d number title hi => ?_, fun d key summary s' hi hok => ?_⟩
  · obtain ⟨jc, gs, gc, issue⟩ := d
    cases hi
    rfl
  · obtain ⟨jc, gs, gc, issue⟩ := d
    cases hi
    cases jc with
    | none => simp [Issues.transition_selected_issue] at hok
    | some cfg =>
      cases htr : transition_issue cfg key status with
      | error e => simp [Issues.transition_selected_issue, htr] at hok
      | ok u =>
        simp [Issues.transition_selected_issue, htr] at hok
        exact hok.symm

/-- Witness for C6: a Jira issue `K-1` with a configured tracker whose
transition call succeeds is preserved through the transition. -/
theorem transition_selected_issue_spec_witness :
    @Issues.transition_selected_issue Unit Unit Unit
      (fun _ _ _ => .ok ()) "Done"
      (.IssueSelected ⟨some (), (), none, .Jira "K-1" "S"⟩) =
      .ok (.IssueSelected ⟨some (), (), none, .Jira "K-1" "S"⟩) ∧
    (Issues.State.IssueSelected ⟨some (), (), none, .Jira "K-1" "S"⟩ :
        Issues.State Unit Unit Unit) =
      .IssueSelected ⟨some (), (), none, .Jira "K-1" "S"⟩ :=
  ⟨rfl, (transition_selected_issue_spec (fun _ _ _ => .ok ()) "Done").2.2
    ⟨some (), (), none, .Jira "K-1" "S"⟩ "K-1" "S" _ rfl rfl⟩

/-- C10: the Jira-facing operations also require a Jira configuration:
without one, `select_jira_issue` from `Initial` and
`transition_selected_issue` on a selected Jira issue both fail with
"Jira is not configured", whatever the tracker oracles would answer (so no
tracker query can be observed). -/
theorem jira_not_configured_errors {J G GS : Type}
    (get_issues : J → String → Except String (List Issues.Issue))
    (select : List Issues.Issue → String → Except String Issues.Issue)
    (transition_issue : J → String → String → Except String Unit) (status : String) :
    (∀ d : Issues.Initial J G GS, d.jira_config = none →
      Issues.select_jira_issue get_issues select status (.Initial d) =
        .error "Jira is not configured") ∧
    (∀ (d : Issues.IssueSelected J G GS) (key summary : String),
      d.jira_config = none → d.issue = .Jira key summary →
      Issues.transition_selected_issue transition_issue status (.IssueSelected d) =
        .error "Jira is not configured") := by
  refine ⟨fun d hj => ?_, fun d key summary hj hi => ?_⟩
  · obtain ⟨jc, gs, gc⟩ := d
    cases hj
    rfl
  · obtain ⟨jc, gs, gc, issue⟩ := d
    cases hj
    cases hi
    rfl

/-- Witness for C10 with trivial oracle types and an unconfigured Jira. -/
theorem jira_not_configured_errors_witness :
    @Issues.select_jira_issue Unit Unit Unit
      (fun _ _ => .ok []) (fun _ _ => .error "cancelled") "In Progress"
      (.Initial ⟨none, (), none⟩) = .error "Jira is not configured" ∧
    @Issues.transition_selected_issue Unit Unit Unit
      (fun _ _ _ => .ok ()) "Done"
      (.IssueSelected ⟨none, (), none, .Jira "K-1" "S"⟩) =
      .error "Jira is not configured" :=
  ⟨(jira_not_configured_errors (fun _ _ => .ok []) (fun _ _ => .error "cancelled")
      (fun _ _ _ => .ok ()) "In Progress").1 ⟨none, (), none⟩ rfl,
   (jira_not_configured_errors (fun _ _ => .ok []) (fun _ _ => .error "cancelled")
      (fun _ _ _ => .ok ()) "Done").2 ⟨none, (), none, .Jira "K-1" "S"⟩ "K-1" "S" rfl rfl⟩

/-- C4 counterexample: a later substitution does re-scan text introduced by an
earlier one. With manifest version `1.2.3`, token `$$` ↦ current-version and
token `2` ↦ issue-branch-name (resolving to `BR`), the command `v=$$` first
becomes `v=1.2.3`, and the second replacement then rewrites the `2` that the
first substitution introduced, yielding `v=1.BR.3` instead of the claimed
`v=1.2.3`. -/
theorem replace_variables_rescan_counterexample :
    Cmd.replace_variables (fun _ => "BR") ⟨some "1.2.3", none, none⟩ "v=$$"
      [("$$", .Version), ("2", .IssueBranch)]
      (⟨none, (), none, .Selected ⟨"13", "1234"⟩, .Initial⟩ : Cmd.State Unit Unit Unit) =
      .ok "v=1.BR.3" ∧
    "v=1.BR.3" ≠ "v=1.2.3" :=
  ⟨rfl, by decide⟩

/-- C4 (amended): each replacement is a literal substring substitution of the
placeholder token with its resolved value in the current — partially
substituted — command string, and the fold over the declared variables
composes accordingly; a later substitution scans the whole current string, so
it can rewrite text introduced by an earlier substitution's value. -/
theorem replace_variables_spec {J G GH : Type} (branch_name : Cmd.Issue → String)
    (m : Manifests) (st : Cmd.State J G GH) :
    (∀ (command : String) (l1 l2 : List (String × Cmd.Variable)),
      Cmd.replace_variables branch_name m command (l1 ++ l2) st =
        match Cmd.replace_variables branch_name m command l1 st with
        | .error e => .error e
        | .ok c => Cmd.replace_variables branch_name m c l2 st) ∧
    (∀ (command name : String) (rest : List (String × Cmd.Variable))
        (pv : PackageVersion), get_version m = .ok pv →
      Cmd.replace_variables branch_name m command ((name, .Version) :: rest) st =
        Cmd.replace_variables branch_name m
          (rustReplace command name (versionToString pv.version)) rest st) ∧
    (∀ (command name : String) (rest : List (String × Cmd.Variable))
        (issue : Cmd.Issue), st.issue = .Selected issue →
      Cmd.replace_variables branch_name m command ((name, .IssueBranch) :: rest) st =
        Cmd.replace_variables branch_name m
          (rustReplace command name (branch_name issue)) rest st) := by
  refine ⟨fun command l1 l2 => ?_, fun command name rest pv h => ?_,
    fun command name rest issue h => ?_⟩
  · induction l1 generalizing command with
    | nil => simp [Cmd.replace_variables]
    | cons hd tl ih =>
      obtain ⟨name, var⟩ := hd
      cases var with
      | Version =>
        cases hv : get_version m with
        | error e => simp [Cmd.replace_variables, hv]
        | ok pv => simp [Cmd.replace_variables, hv, ih]
      | IssueBranch =>
        cases hi : st.issue with
        | Initial => simp [Cmd.replace_variables, hi]
        | Selected issue => simp [Cmd.replace_variables, hi, ih]
  · simp [Cmd.replace_variables, h]
  · simp [Cmd.replace_variables, h]

/-- Witness for C4 (amended): one version substitution step on `blah $$`. -/
theorem replace_variables_spec_witness :
    get_version ⟨some "1.2.3", none, none⟩ = .ok ⟨⟨1, 2, 3, "", ""⟩, .Cargo⟩ ∧
    Cmd.replace_variables (fun _ => "BR") ⟨some "1.2.3", none, none⟩ "blah $$"
      [("$$", .Version)]
      (⟨none, (), none, .Selected ⟨"13", "1234"⟩, .Initial⟩ : Cmd.State Unit Unit Unit) =
      Cmd.replace_variables (fun _ => "BR") ⟨some "1.2.3", none, none⟩
        (rustReplace "blah $$" "$$" (versionToString ⟨1, 2, 3, "", ""⟩)) []
        (⟨none, (), none, .Selected ⟨"13", "1234"⟩, .Initial⟩ : Cmd.State Unit Unit Unit) :=
  ⟨rfl, (replace_variables_spec (fun _ => "BR") ⟨some "1.2.3", none, none⟩
    (⟨none, (), none, .Selected ⟨"13", "1234"⟩, .Initial⟩ : Cmd.State Unit Unit Unit)).2.1
    "blah $$" "$$" [] ⟨⟨1, 2, 3, "", ""⟩, .Cargo⟩ rfl⟩

/-- C7: in dry-run mode `run_command` is independent of the shell (no process
is spawned) and, when substitution succeeds, reports a `Would run` preview
with the state unchanged; substitution failures (discovery/usage errors)
surface in both modes; in real mode a non-zero exit status becomes
`CommandError` carrying that status, and a zero status returns the state
unchanged. -/
theorem run_command_spec {J G GH : Type} (branch_name : Cmd.Issue → String)
    (m : Manifests) (st : Cmd.State J G GH) (out : List String) (command : String)
    (vars : Option (List (String × Cmd.Variable))) :
    (∀ exec exec' : String → Nat,
      Cmd.run_command exec branch_name m (.DryRun st out) command vars =
        Cmd.run_command exec' branch_name m (.DryRun st out) command vars) ∧
    (∀ (exec : String → Nat) (cmd' : String),
      Cmd.substituted branch_name m command vars st = .ok cmd' →
      Cmd.run_command exec branch_name m (.DryRun st out) command vars =
        .ok (.DryRun st (out ++ ["Would run " ++ cmd']))) ∧
    (∀ (exec : String → Nat) (e : Cmd.StepError),
      Cmd.substituted branch_name m command vars st = .error e →
      Cmd.run_command exec branch_name m (.DryRun st out) command vars = .error e ∧
      Cmd.run_command exec branch_name m (.Real st) command vars = .error e) ∧
    (∀ (exec : String → Nat) (cmd' : String),
      Cmd.substituted branch_name m command vars st = .ok cmd' → exec cmd' ≠ 0 →
      Cmd.run_command exec branch_name m (.Real st) command vars =
        .error (.CommandError (exec cmd'))) ∧
    (∀ (exec : String → Nat) (cmd' : String),
      Cmd.substituted branch_name m command vars st = .ok cmd' → exec cmd' = 0 →
      Cmd.run_command exec branch_name m (.Real st) command vars = .ok (.Real st)) := by
  refine ⟨fun exec exec' => ?_, fun exec cmd' h => ?_, fun exec e h => ?_,
    fun exec cmd' h hne => ?_, fun exec cmd' h hz => ?_⟩
  · cases h : Cmd.substituted branch_name m command vars st <;>
      simp [Cmd.run_command, Cmd.RunType.state, h]
  · simp [Cmd.run_command, Cmd.RunType.state, h]
  · constructor <;> simp [Cmd.run_command, Cmd.RunType.state, h]
  · have hb : (exec cmd' == 0) = false := by simpa using hne
    simp [Cmd.run_command, Cmd.RunType.state, h, hb]
  · have hb : (exec cmd' == 0) = true := by simpa using hz
    simp [Cmd.run_command, Cmd.RunType.state, h, hb]

/-- Witness for C7: `blah $$` with `$$` ↦ current-version substitutes to
`blah 1.2.3`; the dry run previews it, a shell answering exit status 7 yields
`CommandError 7`, a shell answering 0 leaves the state unchanged. -/
theorem run_command_spec_witness :
    Cmd.substituted (fun _ => "BR") ⟨some "1.2.3", none, none⟩ "blah $$"
      (some [("$$", .Version)])
      (⟨none, (), none, .Selected ⟨"13", "1234"⟩, .Initial⟩ : Cmd.State Unit Unit Unit) =
      .ok "blah 1.2.3" ∧
    Cmd.run_command (fun _ => 0) (fun _ => "BR") ⟨some "1.2.3", none, none⟩
      (.DryRun (⟨none, (), none, .Selected ⟨"13", "1234"⟩, .Initial⟩ :
        Cmd.State Unit Unit Unit) []) "blah $$" (some [("$$", .Version)]) =
      .ok (.DryRun ⟨none, (), none, .Selected ⟨"13", "1234"⟩, .Initial⟩
        ["Would run blah 1.2.3"]) ∧
    Cmd.run_command (fun _ => 7) (fun _ => "BR") ⟨some "1.2.3", none, none⟩
      (.Real (⟨none, (), none, .Selected ⟨"13", "1234"⟩, .Initial⟩ :
        Cmd.State Unit Unit Unit)) "blah $$" (some [("$$", .Version)]) =
      .error (.CommandError 7) ∧
    Cmd.run_command (fun _ => 0) (fun _ => "BR") ⟨some "1.2.3", none, none⟩
      (.Real (⟨none, (), none, .Selected ⟨"13", "1234"⟩, .Initial⟩ :
        Cmd.State Unit Unit Unit)) "blah $$" (some [("$$", .Version)]) =
      .ok (.Real ⟨none, (), none, .Selected ⟨"13", "1234"⟩, .Initial⟩) :=
  ⟨rfl,
   (run_command_spec (fun _ => "BR") ⟨some "1.2.3", none, none⟩
      ⟨none, (), none, .Selected ⟨"13", "1234"⟩, .Initial⟩ [] "blah $$"
      (some [("$$", .Version)])).2.1 (fun _ => 0) "blah 1.2.3" rfl,
   (run_command_spec (fun _ => "BR") ⟨some "1.2.3", none, none⟩
      ⟨none, (), none, .Selected ⟨"13", "1234"⟩, .Initial⟩ [] "blah $$"
      (some [("$$", .Version)])).2.2.2.1 (fun _ => 7) "blah 1.2.3" rfl (by decide),
   (run_command_spec (fun _ => "BR") ⟨some "1.2.3", none, none⟩
      ⟨none, (), none, .Selected ⟨"13", "1234"⟩, .Initial⟩ [] "blah $$"
      (some [("$$", .Version)])).2.2.2.2 (fun _ => 0) "blah 1.2.3" rfl rfl⟩

/-- C8: `bump_version` leaves the manifests untouched in dry-run mode and
writes the bumped version back through `set_version` in real mode, and
`bump_version_and_update_state` records the bumped version in the release
sub-field as `Bumped(version)` (leaving the rest of the state as it was). -/
theorem bump_version_frame {J G GH : Type} (m : Manifests) (rule : Rule) :
    (∀ (v : Version) (m' : Manifests),
      bump_version m rule true = .ok (v, m') → m' = m) ∧
    (∀ (v : Version) (m' : Manifests),
      bump_version m rule false = .ok (v, m') →
      ∃ pv, get_version m = .ok pv ∧ bump pv.version rule = .ok v ∧
        m' = set_version m { pv with version := v }) ∧
    (∀ (st st' : Cmd.State J G GH) (m' : Manifests),
      Cmd.bump_version_and_update_state m st rule = .ok (st', m') →
      ∃ v, bump_version m rule false = .ok (v, m') ∧
        st' = { st with release := .Bumped v }) := by
  refine ⟨fun v m' h => ?_, fun v m' h => ?_, fun st st' m' h => ?_⟩
  · cases hg : get_version m with
    | error e => simp [bump_version, hg] at h
    | ok pv =>
      cases hb : bump pv.version rule with
      | error e => simp [bump_version, hg, hb] at h
      | ok w =>
        simp [bump_version, hg, hb] at h
        exact h.2.symm
  · cases hg : get_version m with
    | error e => simp [bump_version, hg] at h
    | ok pv =>
      cases hb : bump pv.version rule with
      | error e => simp [bump_version, hg, hb] at h
      | ok w =>
        simp [bump_version, hg, hb] at h
        obtain ⟨rfl, rfl⟩ := h
        exact ⟨pv, rfl, hb, rfl⟩
  · cases hbv : bump_version m rule false with
    | error e => simp [Cmd.bump_version_and_update_state, hbv] at h
    | ok p =>
      obtain ⟨w, mm⟩ := p
      simp [Cmd.bump_version_and_update_state, hbv] at h
      obtain ⟨rfl, rfl⟩ := h
      exact ⟨w, rfl, rfl⟩

/-- Witness for C8 at manifest `Cargo.toml = 1.2.3` with a `Minor` bump: the
dry run returns the manifests unchanged; the stateful step bumps to `1.3.0`,
writes it back to the Cargo manifest, and records `Bumped 1.3.0`. -/
theorem bump_version_frame_witness :
    bump_version ⟨some "1.2.3", none, none⟩ .Minor true =
      .ok (⟨1, 3, 0, "", ""⟩, ⟨some "1.2.3", none, none⟩) ∧
    (⟨some "1.2.3", none, none⟩ : Manifests) = ⟨some "1.2.3", none, none⟩ ∧
    @Cmd.bump_version_and_update_state Unit Unit Unit
      ⟨some "1.2.3", none, none⟩ ⟨none, (), none, .Initial, .Initial⟩ .Minor =
      .ok (⟨none, (), none, .Initial, .Bumped ⟨1, 3, 0, "", ""⟩⟩,
        ⟨some "1.3.0", none, none⟩) ∧
    (∃ v, bump_version ⟨some "1.2.3", none, none⟩ .Minor false =
        .ok (v, ⟨some "1.3.0", none, none⟩) ∧
      (⟨none, (), none, .Initial, .Bumped ⟨1, 3, 0, "", ""⟩⟩ :
          Cmd.State Unit Unit Unit) =
        { (⟨none, (), none, .Initial, .Initial⟩ : Cmd.State Unit Unit Unit) with
            release := .Bumped v }) := by
  have h1 : bump_version ⟨some "1.2.3", none, none⟩ .Minor true =
      .ok (⟨1, 3, 0, "", ""⟩, ⟨some "1.2.3", none, none⟩) := by
    rw [← bump_version_eq_impl]; rfl
  have h2 : bump_version ⟨some "1.2.3", none, none⟩ .Minor false =
      .ok ((⟨1, 3, 0, "", ""⟩ : Version), (⟨some "1.3.0", none, none⟩ : Manifests)) := by
    rw [← bump_version_eq_impl]; rfl
  have h3 : @Cmd.bump_version_and_update_state Unit Unit Unit
      ⟨some "1.2.3", none, none⟩ ⟨none, (), none, .Initial, .Initial⟩ .Minor =
      .ok (⟨none, (), none, .Initial, .Bumped ⟨1, 3, 0, "", ""⟩⟩,
        ⟨some "1.3.0", none, none⟩) := by
    simp [Cmd.bump_version_and_update_state, h2]
  exact ⟨h1,
    (@bump_version_frame Unit Unit Unit
      ⟨some "1.2.3", none, none⟩ .Minor).1 ⟨1, 3, 0, "", ""⟩ _ h1,
    h3,
    (bump_version_frame ⟨some "1.2.3", none, none⟩ .Minor).2.2
      ⟨none, (), none, .Initial, .Initial⟩ _ _ h3⟩

/-- C9: version discovery probes `Cargo.toml`, then `pyproject.toml`, then
`package.json`; the first manifest that yields a version string determines
both the result and the recorded ecosystem tag, an unparsable winner is an
error (no fall-through to a later manifest), and no manifest at all is a
discovery error. -/
theorem get_version_probe_order (m : Manifests) (s : String) :
    (m.cargo = some s →
      (∀ v, parseVersion s = some v → get_version m = .ok ⟨v, .Cargo⟩) ∧
      (parseVersion s = none → get_version m =
        .error ("Found " ++ s ++ " in Cargo.toml which is not a valid version"))) ∧
    (m.cargo = none → m.pyproject = some s →
      (∀ v, parseVersion s = some v → get_version m = .ok ⟨v, .Poetry⟩) ∧
      (parseVersion s = none → get_version m =
        .error ("Found " ++ s ++ " in pyproject.toml which is not a valid version"))) ∧
    (m.cargo = none → m.pyproject = none → m.package_json = some s →
      (∀ v, parseVersion s = some v → get_version m = .ok ⟨v, .JavaScript⟩) ∧
      (parseVersion s = none → get_version m =
        .error ("Found " ++ s ++ " in package.json which is not a valid version"))) ∧
    (m.cargo = none → m.pyproject = none → m.package_json = none →
      get_version m = .error "No supported metadata found to parse version from") := by
  refine ⟨fun hc => ⟨fun v hv => ?_, fun hn => ?_⟩,
    fun hc hp => ⟨fun v hv => ?_, fun hn => ?_⟩,
    fun hc hp hj => ⟨fun v hv => ?_, fun hn => ?_⟩,
    fun hc hp hj => ?_⟩
  · simp [get_version, hc, hv]
  · simp [get_version, hc, hn]
  · simp [get_version, hc, hp, hv]
  · simp [get_version, hc, hp, hn]
  · simp [get_version, hc, hp, hj, hv]
  · simp [get_version, hc, hp, hj, hn]
  · simp [get_version, hc, hp, hj]

/-- Witness for C9: a valid Cargo version wins over a valid pyproject one; an
invalid Cargo version is an error even though pyproject holds a valid one; no
manifests at all is the discovery error. -/
theorem get_version_probe_order_witness :
    parseVersion "1.2.3" = some ⟨1, 2, 3, "", ""⟩ ∧
    get_version ⟨some "1.2.3", some "9.9.9", none⟩ =
      .ok ⟨⟨1, 2, 3, "", ""⟩, .Cargo⟩ ∧
    parseVersion "abc" = none ∧
    get_version ⟨some "abc", some "9.9.9", none⟩ =
      .error "Found abc in Cargo.toml which is not a valid version" ∧
    get_version ⟨none, none, none⟩ =
      .error "No supported metadata found to parse version from" :=
  ⟨by decide,
   ((get_version_probe_order ⟨some "1.2.3", some "9.9.9", none⟩ "1.2.3").1 rfl).1
     ⟨1, 2, 3, "", ""⟩ (by decide),
   by decide,
   ((get_version_probe_order ⟨some "abc", some "9.9.9", none⟩ "abc").1 rfl).2 (by decide),
   (get_version_probe_order ⟨none, none, none⟩ "x").2.2.2 rfl rfl rfl⟩

end Knope
